import Mathlib

/-
Verification of the Adullam service worker (sw.js): a shallow embedding of
its event handlers as pure Lean functions, and theorems about them.

Modelling conventions:
  - Each handler is a pure function from the event (and the relevant
    platform inputs, such as the list of open window clients or the cache
    name list) to the list of platform calls it performs, in program order.
  - JavaScript `undefined`/missing fields are modelled with `Option`;
    the JS truthiness idiom `x || d` on strings is `jsOrString`
    (the empty string is falsy), and on objects it is `Option.getD`.
  - Promise rejection / thrown exceptions are `Except String Unit`;
    a `.catch` or `try/catch` whose handler only logs maps a rejection to
    a successful result.
  - `Date.now()` is passed in as a `now : Nat` parameter.
-/

namespace AdullamSW

/-- The constant `CACHE_NAME` of sw.js (line 5). -/
def CACHE_NAME : String := "adullam-prayer-v1"

/-- The constant `NOTIFICATION_ICON` of sw.js (line 6). -/
def NOTIFICATION_ICON : String := "/vite.svg"

/-- JS string truthiness fallback `s || dflt`: a missing value or the empty
string falls back to the default. -/
def jsOrString (o : Option String) (dflt : String) : String :=
  match o with
  | some s => if s = "" then dflt else s
  | none => dflt

/-- The `data` member of a notification as this program uses it: an opaque
payload of which the click handler reads only `url`, plus the `timestamp`
the push default carries. A missing member is `none`. -/
structure NotifData where
  url : Option String := none
  timestamp : Option Nat := none
deriving DecidableEq

/-- One entry of the `actions` array passed to showNotification. -/
structure NotifAction where
  action : String
  title : String
  icon : Option String := none
deriving DecidableEq

/-- The arguments of a `self.registration.showNotification(title, options)`
call as this program makes them. `title` and `body` are `Option` because the
message path passes the destructured payload members through unchanged, so
they can be `undefined`. -/
structure ShownNotification where
  title : Option String
  body : Option String
  icon : String
  badge : String
  tag : String
  requireInteraction : Bool
  data : NotifData
  vibrate : List Nat
  actions : List NotifAction
deriving DecidableEq

/-- The two fixed action buttons every showNotification call of this program
attaches (sw.js lines 89-99 and 222-232). -/
def fixedActions : List NotifAction :=
  [{ action := "open", title := "Open App", icon := some "/vite.svg" },
   { action := "dismiss", title := "Dismiss" }]

/-! ### Push handler (sw.js lines 51-102) -/

/-- The local `notificationData` object the push handler starts from
(sw.js lines 54-65). -/
structure NotificationData where
  title : String
  body : String
  icon : String
  badge : String
  tag : String
  requireInteraction : Bool
  data : NotifData
deriving DecidableEq

/-- The default `notificationData` literal of sw.js lines 54-65. -/
def defaultNotificationData (now : Nat) : NotificationData :=
  { title := "Prayer Reminder"
    body := "Time for your daily prayer session!"
    icon := NOTIFICATION_ICON
    badge := NOTIFICATION_ICON
    tag := "prayer-notification"
    requireInteraction := false
    data := { url := some "/", timestamp := some now } }

/-- A push payload that `event.data.json()` parsed successfully, restricted
to the members the handler and the notification surface read. A JSON value
that is not an object (or an object without these members) corresponds to
the record with all members `none`: the spread merge then touches none of
the displayed fields. -/
structure PushJson where
  title : Option String := none
  body : Option String := none
  icon : Option String := none
  badge : Option String := none
  tag : Option String := none
  requireInteraction : Option Bool := none
  data : Option NotifData := none
deriving DecidableEq

/-- The body of a push event: either it parses as JSON, or `.json()` throws
and `.text()` yields the raw text. -/
inductive PushData where
  | json (j : PushJson)
  | text (t : String)
deriving DecidableEq

/-- The spread merge `{...notificationData, ...data}` of sw.js lines 70-73:
each member present in the parsed payload overrides the default, shallowly
(the `data` member is replaced wholesale, never deep-merged). -/
def mergePush (d : NotificationData) (j : PushJson) : NotificationData :=
  { title := j.title.getD d.title
    body := j.body.getD d.body
    icon := j.icon.getD d.icon
    badge := j.badge.getD d.badge
    tag := j.tag.getD d.tag
    requireInteraction := j.requireInteraction.getD d.requireInteraction
    data := j.data.getD d.data }

/-- The `notificationData` value after the `if (event.data)` block of
sw.js lines 67-78. In the parse-failure branch the raw text becomes the
body unless it is empty (`event.data.text() || notificationData.body`). -/
def pushNotificationData (now : Nat) (payload : Option PushData) : NotificationData :=
  match payload with
  | none => defaultNotificationData now
  | some (.json j) => mergePush (defaultNotificationData now) j
  | some (.text t) =>
    { defaultNotificationData now with
      body := if t = "" then (defaultNotificationData now).body else t }

/-- The showNotification call of the push handler (sw.js lines 80-101). -/
def pushShown (now : Nat) (payload : Option PushData) : ShownNotification :=
  let nd := pushNotificationData now payload
  { title := some nd.title
    body := some nd.body
    icon := nd.icon
    badge := nd.badge
    tag := nd.tag
    requireInteraction := nd.requireInteraction
    data := nd.data
    vibrate := [200, 100, 200]
    actions := fixedActions }

/-! ### Message handler (sw.js lines 207-249) -/

/-- The payload of a SHOW_NOTIFICATION message as destructured on sw.js
line 211: `const { title, body, icon, tag, data } = event.data.payload`.
Missing members destructure to `undefined`, modelled as `none`. -/
structure MsgPayload where
  title : Option String := none
  body : Option String := none
  icon : Option String := none
  tag : Option String := none
  data : Option NotifData := none
deriving DecidableEq

/-- The showNotification call of the SHOW_NOTIFICATION branch (sw.js
lines 214-233). Only `icon`, `tag` and `data` are defaulted (by JS `||`
falsiness for the strings); `title` and `body` are passed through as
destructured, and `badge` and `requireInteraction` are fixed. -/
def msgShown (now : Nat) (p : MsgPayload) : ShownNotification :=
  { title := p.title
    body := p.body
    icon := jsOrString p.icon NOTIFICATION_ICON
    badge := NOTIFICATION_ICON
    tag := jsOrString p.tag "prayer-notification"
    requireInteraction := false
    data := p.data.getD { url := some "/", timestamp := some now }
    vibrate := [200, 100, 200]
    actions := fixedActions }

/-- The `event.data` of a message event: a `type` string and, for
SHOW_NOTIFICATION messages, a payload. -/
structure MsgData where
  type : String
  payload : MsgPayload := {}
deriving DecidableEq

/-- A message event: its data (possibly null) and whether the sender
attached a reply port (`event.ports && event.ports[0]`). -/
structure MessageEvent where
  data : Option MsgData
  hasPort : Bool
deriving DecidableEq

/-- Observable events in one run of the message handler, in temporal order.
`showResolved` marks the instant the showNotification promise settles. -/
inductive MsgTraceEvent where
  | showStarted (n : ShownNotification)
  | replyPosted
  | showResolved
  | skipWaitingCalled
  | claimCalled
deriving DecidableEq

/-- Execution trace of the message handler (sw.js lines 207-249). The
handler body is synchronous: in the SHOW_NOTIFICATION branch it starts the
showNotification promise (registering it with waitUntil), then posts the
`{success: true}` reply at once if a port was provided. The promise cannot
settle during the synchronous body, so `showResolved` is placed at its
earliest possible instant, after the body; any later placement preserves
the order of the events. -/
def messageHandler (now : Nat) (e : MessageEvent) : List MsgTraceEvent :=
  match e.data with
  | none => []
  | some d =>
    (if d.type = "SHOW_NOTIFICATION" then
      [.showStarted (msgShown now d.payload)] ++
      (if e.hasPort then [.replyPosted] else []) ++
      [.showResolved]
    else []) ++
    (if d.type = "SKIP_WAITING" then [.skipWaitingCalled] else []) ++
    (if d.type = "CLIENTS_CLAIM" then [.claimCalled] else [])

/-- Recogniser for `showStarted` trace events. -/
def isShowStarted : MsgTraceEvent → Bool
  | .showStarted _ => true
  | _ => false

/-- Recogniser for `replyPosted` trace events. -/
def isReplyPosted : MsgTraceEvent → Bool
  | .replyPosted => true
  | _ => false

/-- Recogniser for `showResolved` trace events. -/
def isShowResolved : MsgTraceEvent → Bool
  | .showResolved => true
  | _ => false

/-! ### Notification click handler (sw.js lines 105-141) -/

/-- A window client as returned by
`clients.matchAll({type: 'window', includeUncontrolled: true})`:
its URL, and whether it exposes a `focus` method (the code tests
`'focus' in client`; on real platforms every window client does). -/
structure Client where
  url : String
  focusable : Bool
deriving DecidableEq

/-- A notificationclick event: the action button identifier (the empty
string when the notification body itself was clicked) and the `data` the
notification was shown with. -/
structure ClickEvent where
  action : String
  data : Option NotifData
deriving DecidableEq

/-- JS `s.includes(sub)`: substring containment. -/
def jsIncludes (s sub : String) : Bool :=
  decide (sub.toList <:+: s.toList)

/-- The client matching test of sw.js line 124:
`client.url.includes(self.location.origin) && 'focus' in client`. -/
def clientMatches (origin : String) (c : Client) : Bool :=
  jsIncludes c.url origin && c.focusable

/-- Platform calls the click handler can make. -/
inductive ClickAction where
  | close
  | focus (c : Client)
  | navigate (c : Client) (url : String)
  | openWindow (url : String)
deriving DecidableEq

/-- The navigation step after focusing a client (sw.js lines 126-131):
`if (event.notification.data?.url) return client.navigate(...)` — the
navigate happens only when `data` is present and its `url` is truthy. -/
def clickNavActions (c : Client) (d : Option NotifData) : List ClickAction :=
  match d with
  | some dd =>
    match dd.url with
    | some u => if u = "" then [] else [.navigate c u]
    | none => []
  | none => []

/-- The URL for a fresh window, sw.js line 136:
`event.notification.data?.url || '/'`. -/
def clickTargetUrl (d : Option NotifData) : String :=
  match d with
  | some dd => jsOrString dd.url "/"
  | none => "/"

/-- The notificationclick handler (sw.js lines 105-141) as the ordered list
of platform calls it performs, given the script origin, whether the
platform exposes `clients.openWindow`, the event, and the client list
returned by `clients.matchAll({type: 'window', includeUncontrolled: true})`.
The notification is closed first; on the `dismiss` action nothing else
happens; otherwise the first matching client is focused (and possibly
navigated), and only if no client matches is a new window opened. -/
def notificationClick (origin : String) (openWindowAvailable : Bool)
    (e : ClickEvent) (cs : List Client) : List ClickAction :=
  .close ::
  (if e.action = "dismiss" then []
   else
     match cs.find? (clientMatches origin) with
     | some c => .focus c :: clickNavActions c e.data
     | none =>
       if openWindowAvailable then [.openWindow (clickTargetUrl e.data)] else [])

/-! ### Install and activate handlers (sw.js lines 9-48) -/

/-- A JS rejection handler that only logs: `.catch` on the cache.addAll
promise (sw.js lines 20-22) turns a rejection into a resolution. -/
def jsCatchLog (p : Except String Unit) : Except String Unit :=
  match p with
  | .ok u => .ok u
  | .error _ => .ok ()

/-- The synchronous steps of the install handler, in order. -/
inductive InstallStep where
  | skipWaitingCall
  | cachePopulate
deriving DecidableEq

/-- Result of one run of the install handler. -/
structure InstallResult where
  steps : List InstallStep
  cachedUrls : List String
  waitUntilOutcome : Except String Unit

/-- The install handler (sw.js lines 9-25): `self.skipWaiting()` is called
synchronously first, then the cache population is registered with
waitUntil; `addAllResult` is the outcome of `cache.addAll([...])`, whose
rejection the attached `.catch` swallows after logging. -/
def installHandler (addAllResult : Except String Unit) : InstallResult :=
  { steps := [.skipWaitingCall, .cachePopulate]
    cachedUrls := ["/", "/vite.svg"]
    waitUntilOutcome := jsCatchLog addAllResult }

/-- Result of one run of the activate handler. -/
structure ActivateResult where
  deletedCaches : List String
  claimedClients : Bool
deriving DecidableEq

/-- The cache names the activate handler deletes (sw.js lines 33-42):
every existing name different from `CACHE_NAME`. -/
def activateDeletedCaches (cacheNames : List String) : List String :=
  cacheNames.filter (fun name => name != CACHE_NAME)

/-- The activate handler (sw.js lines 28-48): deletes the stale caches and
claims all clients. -/
def activateHandler (cacheNames : List String) : ActivateResult :=
  { deletedCaches := activateDeletedCaches cacheNames
    claimedClients := true }

/-! ### Background sync handlers (sw.js lines 150-203) -/

/-- The asynchronous work a sync-family handler can register. -/
inductive BgTask where
  | checkNotifications
deriving DecidableEq

/-- The sync handler (sw.js lines 150-156): registers the background check
exactly for the tag `check-notifications`. -/
def syncHandler (tag : String) : List BgTask :=
  if tag = "check-notifications" then [.checkNotifications] else []

/-- The periodicsync handler (sw.js lines 160-168). The listener is
installed only when the platform advertises periodicsync support; when
installed, it registers the background check exactly for the tag
`check-prayer-notifications`. -/
def periodicSyncHandler (supported : Bool) (tag : String) : List BgTask :=
  if supported then
    if tag = "check-prayer-notifications" then [.checkNotifications] else []
  else []

/-- A try/catch whose catch only logs (sw.js lines 173-202): the routine
body cannot propagate an error. -/
def tryCatchLog (body : Except String Unit) : Except String Unit :=
  match body with
  | .ok u => .ok u
  | .error _ => .ok ()

/-- checkNotificationsInBackground (sw.js lines 172-203): the try block
only logs today (`bodyFault` models any exception a future body would
raise); the surrounding try/catch swallows it, so the routine never
throws. -/
def checkNotificationsInBackground (bodyFault : Option String) : Except String Unit :=
  tryCatchLog
    (match bodyFault with
     | some e => .error e
     | none => .ok ())

/-! ### Helper lemmas -/

/-- A same-origin, focusable client passes the matching test of sw.js
line 124: if the origin is a prefix of the client URL it is in particular a
substring of it. -/
theorem clientMatches_of_prefix (origin : String) (c : Client)
    (h1 : origin.toList <+: c.url.toList) (h2 : c.focusable = true) :
    clientMatches origin c = true := by
  obtain ⟨t, ht⟩ := h1
  have hinc : jsIncludes c.url origin = true := by
    apply decide_eq_true
    exact ⟨[], t, by simpa using ht⟩
  simp [clientMatches, hinc, h2]

/-! ### Theorems for the claims -/

/-- C1: for a push payload that parses as JSON, every displayed
notification field equals the documented default overridden, field by
field and shallowly, by the member present in the payload (`data` is
replaced wholesale when present). -/
theorem push_json_overrides_defaults_fieldwise (now : Nat) (j : PushJson) :
    (pushShown now (some (.json j))).title = some (j.title.getD "Prayer Reminder") ∧
    (pushShown now (some (.json j))).body =
      some (j.body.getD "Time for your daily prayer session!") ∧
    (pushShown now (some (.json j))).icon = j.icon.getD "/vite.svg" ∧
    (pushShown now (some (.json j))).badge = j.badge.getD "/vite.svg" ∧
    (pushShown now (some (.json j))).tag = j.tag.getD "prayer-notification" ∧
    (pushShown now (some (.json j))).requireInteraction = j.requireInteraction.getD false ∧
    (pushShown now (some (.json j))).data =
      j.data.getD { url := some "/", timestamp := some now } :=
  ⟨rfl, rfl, rfl, rfl, rfl, rfl, rfl⟩

/-- C6: for an absent push payload the notification is shown with all
documented defaults; for an unparsable payload the body is the raw text
(or the default body when the raw text is empty) and every other field
keeps its default. -/
theorem push_fallback_uses_defaults (now : Nat) (t : String) :
    pushShown now none =
      { title := some "Prayer Reminder"
        body := some "Time for your daily prayer session!"
        icon := "/vite.svg"
        badge := "/vite.svg"
        tag := "prayer-notification"
        requireInteraction := false
        data := { url := some "/", timestamp := some now }
        vibrate := [200, 100, 200]
        actions := fixedActions } ∧
    pushShown now (some (.text t)) =
      { pushShown now none with
        body := some (if t = "" then "Time for your daily prayer session!" else t) } :=
  ⟨rfl, rfl⟩

/-- C5: activation deletes a cache bucket exactly when its name differs
from the current version name, preserves the current bucket, and on the
bucket set of the example deletes exactly the stale one. -/
theorem activate_deletes_exactly_stale (cacheNames : List String) (name : String) :
    (name ∈ (activateHandler cacheNames).deletedCaches ↔
      name ∈ cacheNames ∧ name ≠ CACHE_NAME) ∧
    CACHE_NAME ∉ (activateHandler cacheNames).deletedCaches ∧
    (activateHandler ["adullam-prayer-v0", "adullam-prayer-v1"]).deletedCaches =
      ["adullam-prayer-v0"] := by
  refine ⟨?_, ?_, by decide⟩
  · simp [activateHandler, activateDeletedCaches, List.mem_filter]
  · simp [activateHandler, activateDeletedCaches, List.mem_filter]

/-- C7: a click that identifies the `dismiss` action only closes the
notification: no focus, navigate or openWindow call follows, for any
origin, platform capability, client list and notification data. -/
theorem click_dismiss_only_closes (origin : String) (avail : Bool)
    (e : ClickEvent) (cs : List Client) (h : e.action = "dismiss") :
    notificationClick origin avail e cs = [.close] := by
  simp [notificationClick, h]

/-- Witness for C7 at a concrete dismiss click with an open client and a
target URL present. -/
theorem click_dismiss_only_closes_witness :
    notificationClick "http://localhost:3000" true
      { action := "dismiss", data := some { url := some "/sessions/5" } }
      [{ url := "http://localhost:3000/", focusable := true }] = [.close] :=
  click_dismiss_only_closes "http://localhost:3000" true
    { action := "dismiss", data := some { url := some "/sessions/5" } }
    [{ url := "http://localhost:3000/", focusable := true }] rfl

/-- C9: on install, skip-waiting is the first, synchronous step, the cache
pre-population targets the root document and the icon, and the waitUntil
outcome is a success for every outcome of the cache population — a
rejection is swallowed, so installation always completes. -/
theorem install_skip_waiting_and_swallowed_cache_failure (r : Except String Unit) :
    (installHandler r).steps = [.skipWaitingCall, .cachePopulate] ∧
    (installHandler r).cachedUrls = ["/", "/vite.svg"] ∧
    (installHandler r).waitUntilOutcome = .ok () := by
  refine ⟨rfl, rfl, ?_⟩
  cases r with
  | ok u => rfl
  | error e => rfl

/-- C10: the sync handler registers work exactly for the tag
`check-notifications`, the periodicsync handler exactly when supported and
for the tag `check-prayer-notifications`, and the background check routine
never throws, whatever fault its body raises. -/
theorem background_check_gating (tag : String) (supported : Bool)
    (fault : Option String) :
    (syncHandler tag ≠ [] ↔ tag = "check-notifications") ∧
    (periodicSyncHandler supported tag ≠ [] ↔
      supported = true ∧ tag = "check-prayer-notifications") ∧
    checkNotificationsInBackground fault = .ok () := by
  refine ⟨?_, ?_, ?_⟩
  · by_cases h : tag = "check-notifications" <;> simp [syncHandler, h]
  · cases supported <;>
      by_cases h : tag = "check-prayer-notifications" <;>
        simp [periodicSyncHandler, h]
  · cases fault <;> rfl

/-- C4: for a non-dismiss click, when every client the platform returns is
same-origin and focusable (which is what
`clients.matchAll({type:'window', includeUncontrolled:true})` yields: the
list contains exactly the same-origin window clients, controlled or not),
and at least one such client is open, the first client in platform order is
focused, then navigated to the target URL the notification data carries
(if any); no new window is opened and exactly one client is focused. -/
theorem click_focuses_first_same_origin_client (origin : String) (e : ClickEvent)
    (c : Client) (rest : List Client)
    (hact : e.action ≠ "dismiss")
    (hall : ∀ x ∈ c :: rest, origin.toList <+: x.url.toList ∧ x.focusable = true) :
    notificationClick origin true e (c :: rest) =
      .close :: .focus c :: clickNavActions c e.data ∧
    (∀ u, ClickAction.openWindow u ∉ notificationClick origin true e (c :: rest)) ∧
    (notificationClick origin true e (c :: rest)).countP
      (fun a => match a with | .focus _ => true | _ => false) = 1 ∧
    (∀ d u, e.data = some d → d.url = some u → u ≠ "" →
      clickNavActions c e.data = [.navigate c u]) := by
  obtain ⟨h1, h2⟩ := hall c (List.mem_cons_self c rest)
  have hmatch : clientMatches origin c = true := clientMatches_of_prefix origin c h1 h2
  have hfind : (c :: rest).find? (clientMatches origin) = some c :=
    List.find?_cons_of_pos rest hmatch
  have heq : notificationClick origin true e (c :: rest) =
      .close :: .focus c :: clickNavActions c e.data := by
    simp [notificationClick, hact, hfind]
  refine ⟨heq, ?_, ?_, ?_⟩
  · intro u
    rw [heq]
    cases hd : e.data with
    | none => simp [clickNavActions]
    | some dd =>
      cases hu : dd.url with
      | none => simp [clickNavActions, hu]
      | some v =>
        by_cases hv : v = "" <;> simp [clickNavActions, hu, hv]
  · rw [heq]
    cases hd : e.data with
    | none => simp [clickNavActions, List.countP_cons]
    | some dd =>
      cases hu : dd.url with
      | none => simp [clickNavActions, hu, List.countP_cons]
      | some v =>
        by_cases hv : v = "" <;> simp [clickNavActions, hu, hv, List.countP_cons]
  · intro d u hd hu hne
    simp [clickNavActions, hd, hu, hne]

/-- Witness for C4: one open same-origin client and a notification whose
data carries the target URL `/sessions/5` — the client is focused and
navigated there; nothing is opened. -/
theorem click_focuses_first_same_origin_client_witness :
    notificationClick "http://localhost:3000" true
      { action := "", data := some { url := some "/sessions/5" } }
      [{ url := "http://localhost:3000/", focusable := true }] =
      .close :: .focus { url := "http://localhost:3000/", focusable := true } ::
        clickNavActions { url := "http://localhost:3000/", focusable := true }
          (some { url := some "/sessions/5" }) :=
  (click_focuses_first_same_origin_client "http://localhost:3000"
    { action := "", data := some { url := some "/sessions/5" } }
    { url := "http://localhost:3000/", focusable := true } []
    (by decide) (by decide)).1

/-- C8: for a non-dismiss click with no matching client, exactly one new
window is opened, at the URL the notification data carries, or at the root
when the data or its URL is absent. -/
theorem click_opens_window_when_no_client_matches (origin : String)
    (e : ClickEvent) (cs : List Client)
    (hact : e.action ≠ "dismiss")
    (hnone : ∀ c ∈ cs, clientMatches origin c = false) :
    notificationClick origin true e cs =
      [.close, .openWindow (clickTargetUrl e.data)] ∧
    (e.data = none → clickTargetUrl e.data = "/") ∧
    (∀ d, e.data = some d → d.url = none → clickTargetUrl e.data = "/") ∧
    (∀ d u, e.data = some d → d.url = some u → u ≠ "" →
      clickTargetUrl e.data = u) := by
    have hfind : cs.find? (clientMatches origin) = none := by
      rw [List.find?_eq_none]
      intro x hx
      simp [hnone x hx]
    refine ⟨by simp [notificationClick, hact, hfind], ?_, ?_, ?_⟩
    · intro hd; simp [clickTargetUrl, hd]
    · intro d hd hu; simp [clickTargetUrl, hd, jsOrString, hu]
    · intro d u hd hu hne; simp [clickTargetUrl, hd, jsOrString, hu, hne]

/-- Witness for C8: zero open clients and target URL `/sessions/5` — one
openWindow call at that URL. -/
theorem click_opens_window_when_no_client_matches_witness :
    notificationClick "http://localhost:3000" true
      { action := "", data := some { url := some "/sessions/5" } } [] =
      [.close, .openWindow
        (clickTargetUrl (some { url := some "/sessions/5" }))] :=
  (click_opens_window_when_no_client_matches "http://localhost:3000"
    { action := "", data := some { url := some "/sessions/5" } } []
    (by decide) (by decide)).1

/-- Counterexample to C2: a SHOW_NOTIFICATION payload that omits `title`
is shown with no title at all — not with the push-path default title
`Prayer Reminder` the claim promises. -/
theorem msg_missing_title_not_defaulted :
    (msgShown 0 { body := some "B" }).title = none ∧
    (msgShown 0 { body := some "B" }).title ≠ some "Prayer Reminder" := by
  exact ⟨rfl, by decide⟩

/-- C2 (amended): the SHOW_NOTIFICATION branch defaults only `icon` (to
`/vite.svg` when missing or empty), `tag` (to `prayer-notification` when
missing or empty) and `data` (to `{url: "/", timestamp}` when missing);
`badge` is always `/vite.svg` and `requireInteraction` always false, while
`title` and `body` are passed through exactly as destructured, so a missing
title or body stays missing instead of taking the push-path default.
Exactly one notification is shown per SHOW_NOTIFICATION message, and the
payload `{title: "T", body: "B"}` is shown with title `T` and body `B`. -/
theorem msg_show_notification_fields (now : Nat) (p : MsgPayload) (port : Bool) :
    (msgShown now p).title = p.title ∧
    (msgShown now p).body = p.body ∧
    (msgShown now p).icon = jsOrString p.icon "/vite.svg" ∧
    (msgShown now p).badge = "/vite.svg" ∧
    (msgShown now p).tag = jsOrString p.tag "prayer-notification" ∧
    (msgShown now p).requireInteraction = false ∧
    (msgShown now p).data = p.data.getD { url := some "/", timestamp := some now } ∧
    (messageHandler now
      { data := some { type := "SHOW_NOTIFICATION", payload := p },
        hasPort := port }).countP isShowStarted = 1 ∧
    (msgShown 0 { title := some "T", body := some "B" }).title = some "T" ∧
    (msgShown 0 { title := some "T", body := some "B" }).body = some "B" := by
  refine ⟨rfl, rfl, rfl, rfl, rfl, rfl, rfl, ?_, rfl, rfl⟩
  cases port <;> rfl

/-- Counterexample to C3: in the trace of a SHOW_NOTIFICATION message with
a reply port, there is exactly one reply and exactly one resolution of the
show operation, and the reply is posted strictly before the show operation
resolves — not after it, as the claim states. -/
theorem msg_reply_posted_before_show_resolves :
    ((messageHandler 0
      { data := some { type := "SHOW_NOTIFICATION",
                       payload := { title := some "T", body := some "B" } },
        hasPort := true }).countP isReplyPosted = 1) ∧
    ((messageHandler 0
      { data := some { type := "SHOW_NOTIFICATION",
                       payload := { title := some "T", body := some "B" } },
        hasPort := true }).countP isShowResolved = 1) ∧
    ((messageHandler 0
      { data := some { type := "SHOW_NOTIFICATION",
                       payload := { title := some "T", body := some "B" } },
        hasPort := true }).findIdx isReplyPosted <
     (messageHandler 0
      { data := some { type := "SHOW_NOTIFICATION",
                       payload := { title := some "T", body := some "B" } },
        hasPort := true }).findIdx isShowResolved) := by
  refine ⟨rfl, rfl, by decide⟩

/-- C3 (amended): for a SHOW_NOTIFICATION message, exactly one
`{success: true}` reply is posted when the sender provided a reply port and
none otherwise; the reply is posted synchronously in the handler body,
before the show operation resolves (the trace is show-started, reply,
show-resolved). -/
theorem msg_reply_iff_port (now : Nat) (p : MsgPayload) (port : Bool) :
    messageHandler now
      { data := some { type := "SHOW_NOTIFICATION", payload := p },
        hasPort := port } =
      (if port then
        [.showStarted (msgShown now p), .replyPosted, .showResolved]
      else
        [.showStarted (msgShown now p), .showResolved]) ∧
    (messageHandler now
      { data := some { type := "SHOW_NOTIFICATION", payload := p },
        hasPort := port }).countP isReplyPosted = (if port then 1 else 0) := by
  cases port <;> exact ⟨rfl, rfl⟩

end AdullamSW
